import Mathlib

/-!
Verification development for the two-stage video pipeline in main.py.

Stage one (transform_video) converts each left/right input video into an
intermediate artifact and registers it, under a per-side lock, in the
side's shared set (transformed_left / transformed_right). Stage two is a
driver loop that repeatedly snapshots both registries, dispatches the full
Cartesian product of the snapshots to a combine pool (join_videos), waits
for the batch, and unions the batch into all_video_combinations.

The external process launcher (subprocess.run on an ffmpeg command) is
modelled as an input of type Except String ProcResult: an error value is a
raised exception during launch, an ok value carries the exit status and
captured stderr. Lock-protected registry updates are modelled as atomic
functional updates; the driver loop is modelled as a state machine indexed
by the iteration number, reading an environment trace that supplies, for
each guard evaluation, the elapsed wall-clock seconds and the two registry
snapshots visible at that moment.
-/

set_option autoImplicit false

namespace CombineLR

/-- Wall-clock budget in seconds for the combination loop (main.py line 40). -/
def MAX_ENC_TIME : Nat := 10800

/-- Concurrency cap for transform processes (main.py line 38). -/
def MAX_CONCURRENT_DEC_PROCESSES : Nat := 30

/-- Concurrency cap for combine processes (main.py line 39). -/
def MAX_CONCURRENT_ENC_PROCESSES : Nat := 30

/-- Helper for basename: scan the characters, restarting the accumulator
after every path separator, so the result is the part after the last
separator, as os.path.basename computes for these paths. -/
def basenameData : List Char → List Char → List Char
  | [], acc => acc.reverse
  | c :: cs, acc => if c = '/' then basenameData cs [] else basenameData cs (c :: acc)

/-- Model of os.path.basename: the part of the path after the last slash. -/
def basename (p : String) : String := String.mk (basenameData p.data [])

/-- Model of the Python slice s[:-4] used on line 98: drop the last four
characters (empty result when the string has at most four characters). -/
def pySliceDropLast4 (s : String) : String :=
  String.mk (s.data.take (s.data.length - 4))

/-- Model of os.path.join for the directory/file joins in main.py. -/
def joinPath (d f : String) : String := d ++ "/" ++ f

/-- Side of the pipeline: transform_video's side argument. -/
inductive Side where
  | left
  | right
deriving DecidableEq

/-- Output directory for transformed left videos (main.py line 55). -/
def output_left_dir : String := "transformed_left_videos"

/-- Output directory for transformed right videos (main.py line 56). -/
def output_right_dir : String := "transformed_right_videos"

/-- Final output directory for combined videos (main.py line 57). -/
def final_output_dir : String := "video_output"

/-- Per-side output directory selection (main.py line 69). -/
def output_dir : Side → String
  | .left => output_left_dir
  | .right => output_right_dir

/-- Result of a completed external process: exit status and captured
stderr, as returned by subprocess.run. -/
structure ProcResult where
  returncode : Int
  stderr : String
deriving DecidableEq

/-- Whether a launch attempt ended in a zero exit status (no exception and
returncode equal to zero). -/
def launch_ok : Except String ProcResult → Bool
  | .error _ => false
  | .ok r => r.returncode == 0

/-- Intermediate artifact path derived from an input file by
transform_video (main.py line 70): the side's output directory joined with
the input file's basename. -/
def transform_output_file (side : Side) (input_file : String) : String :=
  joinPath (output_dir side) (basename input_file)

/-- Result of one transform_video call: the updated registry for the
side, and the messages printed by this call in order. -/
structure TransformOutcome where
  registry : Finset String
  logs : List String
deriving DecidableEq

/-- Model of transform_video (main.py lines 65 to 94) for one side's
registry. The launch result is an input; on an exception or a non-zero
exit status the registry is unchanged and a failure message is logged; on
success the derived artifact is inserted (the insertion happens while
holding the side's lock in the source, modelled here as one atomic
functional update). The call never propagates a failure. -/
def transform_video (input_file : String) (side : Side)
    (res : Except String ProcResult) (reg : Finset String) : TransformOutcome :=
  let output_file := transform_output_file side input_file
  let startLog := "Starting video transformation " ++ input_file
  match res with
  | .error e =>
      ⟨reg, [startLog, "Exception video transformation " ++ input_file ++ ": " ++ e]⟩
  | .ok r =>
      if r.returncode ≠ 0 then
        ⟨reg, [startLog, "Error video transformation " ++ input_file ++ ": " ++ r.stderr]⟩
      else
        ⟨insert output_file reg, [startLog, "Finished video transformation " ++ input_file]⟩

/-- Sequential model of submitting every item of one side to the transform
pool (main.py lines 127 to 132): each input file is handed to
transform_video exactly once, and the registry updates are serialized by
the side's lock, so the final registry is a fold of the per-item updates. -/
def run_transforms (items : List String) (side : Side)
    (res : String → Except String ProcResult) (reg : Finset String) : Finset String :=
  items.foldl (fun acc item => (transform_video item side (res item) acc).registry) reg

/-- Combined output basename computed by join_videos (main.py line 98):
the left basename with its last four characters dropped, an underscore,
then the full right basename. -/
def join_output_basename (input_file_left input_file_right : String) : String :=
  pySliceDropLast4 (basename input_file_left) ++ "_" ++ basename input_file_right

/-- Combined output path computed by join_videos (main.py line 99). -/
def join_output_file (input_file_left input_file_right : String) : String :=
  joinPath final_output_dir (join_output_basename input_file_left input_file_right)

/-- Model of join_videos (main.py lines 97 to 117): the messages printed
by one combine task, in order. Nothing else is updated by the task itself;
in particular a failure is logged and then dropped, never retried. -/
def join_videos (input_file_left input_file_right : String)
    (res : Except String ProcResult) : List String :=
  let output_file := join_output_file input_file_left input_file_right
  match res with
  | .error e =>
      ["Writing to " ++ output_file, "Exception writing to " ++ output_file ++ ": " ++ e]
  | .ok r =>
      if r.returncode ≠ 0 then
        ["Writing to " ++ output_file, "Error writing to " ++ output_file ++ ": " ++ r.stderr]
      else
        ["Writing to " ++ output_file, "Finished writing to " ++ output_file]

/-- Loop guard of the driver (main.py line 137): continue while the number
of produced combinations is below the total, or the elapsed time exceeds
MAX_ENC_TIME. The disjunction is taken verbatim from the source. -/
def loop_guard (producedCard total t : Nat) : Bool :=
  decide (producedCard < total) || decide (t > MAX_ENC_TIME)

/-- Environment trace seen by the driver loop: for the n-th guard
evaluation, the elapsed seconds since start_enc_time, and the snapshots of
the two registries that the iteration would read under both locks. -/
structure Trace where
  timeAt : Nat → Nat
  leftAt : Nat → Finset String
  rightAt : Nat → Finset String

/-- State of the driver loop before the n-th guard evaluation: the set
all_video_combinations, and whether the loop is still running. -/
structure DriverState where
  produced : Finset (String × String)
  running : Bool
deriving DecidableEq

/-- Driver loop of main.py lines 134 to 150 as a state machine. At step n,
if the loop already exited, nothing changes. Otherwise the guard is
evaluated; when true, the iteration snapshots both registries under the
locks, dispatches their full Cartesian product as one batch, waits for the
batch, and unions the batch into all_video_combinations; when false, the
loop exits. -/
def driver_state (tr : Trace) (total : Nat) : Nat → DriverState
  | 0 => ⟨∅, true⟩
  | n + 1 =>
      let s := driver_state tr total n
      if s.running then
        if loop_guard s.produced.card total (tr.timeAt n) then
          ⟨s.produced ∪ (tr.leftAt n) ×ˢ (tr.rightAt n), true⟩
        else
          ⟨s.produced, false⟩
      else s

/-- Batch of combine tasks submitted during step n of the driver loop: the
full Cartesian product of the two snapshots when the loop is running and
the guard holds, and nothing otherwise. -/
def dispatch_batch (tr : Trace) (total : Nat) (n : Nat) : Finset (String × String) :=
  let s := driver_state tr total n
  if s.running && loop_guard s.produced.card total (tr.timeAt n) then
    (tr.leftAt n) ×ˢ (tr.rightAt n)
  else ∅

/-- Result of one body iteration of the driver loop (main.py lines 142 to
150), with the combine results supplied as an input: the batch prepared
from the snapshots, the messages printed by all combine tasks of the
batch, and the updated all_video_combinations. -/
structure IterationOutcome where
  batch : Finset (String × String)
  logs : Multiset String
  produced : Finset (String × String)

/-- One body iteration of the driver loop: prepared_combinations is the
full product of the two snapshots; every pair of the batch is handed to
join_videos exactly once and its messages are collected (the wait call
returns only when all of them have run); all_video_combinations is then
the union of the previous value with the batch, regardless of the
per-task results. -/
def driver_iteration (leftSnap rightSnap : Finset String)
    (produced : Finset (String × String))
    (res : String × String → Except String ProcResult) : IterationOutcome :=
  let prepared := leftSnap ×ˢ rightSnap
  ⟨prepared,
   prepared.val.bind (fun p => (join_videos p.1 p.2 (res p) : Multiset String)),
   produced ∪ prepared⟩

/-- Registry effect of one transform_video call: insert the derived
artifact on success, leave the registry unchanged otherwise. -/
lemma transform_video_registry (input_file : String) (side : Side)
    (res : Except String ProcResult) (reg : Finset String) :
    (transform_video input_file side res reg).registry =
      if launch_ok res then insert (transform_output_file side input_file) reg else reg := by
  cases res with
  | error e => simp [transform_video, launch_ok]
  | ok r =>
      by_cases h : r.returncode = 0 <;> simp [transform_video, launch_ok, h]

/-- Once the driver loop has exited, its state no longer changes. -/
lemma driver_state_frozen (tr : Trace) (total n : Nat)
    (h : (driver_state tr total n).running = false) :
    driver_state tr total (n + 1) = driver_state tr total n := by
  simp [driver_state, h]

/-- Step of the driver loop while running with a true guard: the batch is
unioned in and the loop keeps running. -/
lemma driver_state_step_run (tr : Trace) (total n : Nat)
    (hrun : (driver_state tr total n).running = true)
    (hg : loop_guard (driver_state tr total n).produced.card total (tr.timeAt n) = true) :
    driver_state tr total (n + 1) =
      ⟨(driver_state tr total n).produced ∪ (tr.leftAt n) ×ˢ (tr.rightAt n), true⟩ := by
  simp [driver_state, hrun, hg]

/-- Step of the driver loop while running with a false guard: the loop
exits with its produced set unchanged. -/
lemma driver_state_step_stop (tr : Trace) (total n : Nat)
    (hrun : (driver_state tr total n).running = true)
    (hg : loop_guard (driver_state tr total n).produced.card total (tr.timeAt n) = false) :
    driver_state tr total (n + 1) = ⟨(driver_state tr total n).produced, false⟩ := by
  simp [driver_state, hrun, hg]

/-- Each produced set along the run stays inside the product of any pair
of sets that bound every snapshot of the trace. -/
lemma produced_subset_of_snapshots (tr : Trace) (total : Nat) (L R : Finset String)
    (hsub : ∀ n, tr.leftAt n ⊆ L ∧ tr.rightAt n ⊆ R) :
    ∀ n, (driver_state tr total n).produced ⊆ L ×ˢ R := by
  intro n
  induction n with
  | zero => simp [driver_state]
  | succ n ih =>
      have hbatch : (tr.leftAt n) ×ˢ (tr.rightAt n) ⊆ L ×ˢ R :=
        Finset.product_subset_product (hsub n).1 (hsub n).2
      cases hrun : (driver_state tr total n).running with
      | false => simpa [driver_state, hrun] using ih
      | true =>
          cases hg : loop_guard (driver_state tr total n).produced.card total (tr.timeAt n) with
          | false => simpa [driver_state, hrun, hg] using ih
          | true =>
              simp only [driver_state, hrun, hg, if_true]
              exact Finset.union_subset ih hbatch

/-- Every pair that is ever in the produced set was dispatched in some
batch of the run. -/
lemma mem_produced_exists_dispatch (tr : Trace) (total : Nat) :
    ∀ n p, p ∈ (driver_state tr total n).produced →
      ∃ m, p ∈ dispatch_batch tr total m := by
  intro n
  induction n with
  | zero => simp [driver_state]
  | succ n ih =>
      intro p hp
      cases hrun : (driver_state tr total n).running with
      | false =>
          exact ih p (by simpa [driver_state, hrun] using hp)
      | true =>
          cases hg : loop_guard (driver_state tr total n).produced.card total (tr.timeAt n) with
          | false =>
              exact ih p (by simpa [driver_state, hrun, hg] using hp)
          | true =>
              rw [driver_state] at hp
              simp only [hrun, hg, if_true, Finset.mem_union] at hp
              rcases hp with hp | hp
              · exact ih p hp
              · exact ⟨n, by simp [dispatch_batch, hrun, hg, hp]⟩

/-- When the driver loop has exited and every snapshot was bounded by the
final artifact sets whose product has exactly total elements, the produced
set is the full product. -/
lemma stopped_produced_full (tr : Trace) (total : Nat) (L R : Finset String)
    (hsub : ∀ n, tr.leftAt n ⊆ L ∧ tr.rightAt n ⊆ R)
    (htot : total = (L ×ˢ R).card) :
    ∀ n, (driver_state tr total n).running = false →
      (driver_state tr total n).produced = L ×ˢ R := by
  intro n
  induction n with
  | zero => intro h; simp [driver_state] at h
  | succ n ih =>
      intro h
      cases hrun : (driver_state tr total n).running with
      | false =>
          rw [driver_state_frozen tr total n hrun]
          exact ih hrun
      | true =>
          cases hg : loop_guard (driver_state tr total n).produced.card total (tr.timeAt n) with
          | true => simp [driver_state, hrun, hg] at h
          | false =>
              have hsubn := produced_subset_of_snapshots tr total L R hsub n
              have h2 : total ≤ (driver_state tr total n).produced.card ∧
                  tr.timeAt n ≤ MAX_ENC_TIME := by
                simpa [loop_guard, Nat.not_lt] using hg
              have hcard := h2.1
              have hgoal : driver_state tr total (n + 1) =
                  ⟨(driver_state tr total n).produced, false⟩ := by
                simp [driver_state, hrun, hg]
              rw [hgoal]
              show (driver_state tr total n).produced = L ×ˢ R
              exact Finset.eq_of_subset_of_card_le hsubn (by omega)

/-- Sanity lemma tying the artifact derivation to a concrete path: the
left artifact of left_dir/videoA.mp4 keeps its basename under the left
output directory. -/
lemma transform_output_file_example :
    transform_output_file .left "left_dir/videoA.mp4" =
      "transformed_left_videos/videoA.mp4" := by decide

/-- C2: the driver loop keeps iterating exactly while the produced count
is below the total or the elapsed time exceeds MAX_ENC_TIME; the guard is
false exactly when both the count has reached the total and the time is
within budget, so whenever the produced count is below the total the guard
holds no matter how large the elapsed time is (the timeout alone never
stops the loop); and the loop exits exactly when this guard goes false,
with no other termination signal. -/
theorem c2_guard_disjunction_timeout_never_stops :
    (∀ producedCard total t : Nat,
        (loop_guard producedCard total t = false ↔
          total ≤ producedCard ∧ t ≤ MAX_ENC_TIME) ∧
        (producedCard < total → loop_guard producedCard total t = true)) ∧
    (∀ (tr : Trace) (total n : Nat),
        (driver_state tr total (n + 1)).running = false ↔
          ((driver_state tr total n).running = false ∨
            loop_guard (driver_state tr total n).produced.card total (tr.timeAt n) = false)) := by
  constructor
  · intro producedCard total t
    constructor
    · simp [loop_guard, Nat.not_lt]
    · intro h
      simp [loop_guard, h]
  · intro tr total n
    cases hrun : (driver_state tr total n).running with
    | false => simp [driver_state, hrun]
    | true =>
        cases hg : loop_guard (driver_state tr total n).produced.card total (tr.timeAt n) with
        | false => simp [driver_state, hrun, hg]
        | true => simp [driver_state, hrun, hg]

/-- Witness for C2: with zero produced out of two and the time budget
exceeded by far, the guard still holds. -/
theorem c2_guard_witness : loop_guard 0 2 99999 = true :=
  ((c2_guard_disjunction_timeout_never_stops.1 0 2 99999).2 (by decide))

/-- C6 counterexample: the code drops the last four characters of the
left basename before concatenating (main.py line 98), so for left
artifact A.int and right artifact X.int the output basename is not the
plain left-then-right concatenation A.int_X.int claimed. -/
theorem c6_naming_counterexample :
    join_output_basename "A.int" "X.int" ≠ "A.int_X.int" := by decide

/-- C6 amended: the combine output name is the left basename with its
last four characters removed, then an underscore, then the full right
basename; for left artifacts A.int and B.int and right artifact X.int the
two dispatched pairs yield outputs named A_X.int and B_X.int. -/
theorem c6_output_naming_truncates_left :
    join_output_basename "A.int" "X.int" = "A_X.int" ∧
    join_output_basename "B.int" "X.int" = "B_X.int" ∧
    (driver_iteration {"A.int", "B.int"} {"X.int"} ∅ (fun _ => Except.ok ⟨0, ""⟩)).batch.card = 2 ∧
    ((driver_iteration {"A.int", "B.int"} {"X.int"} ∅ (fun _ => Except.ok ⟨0, ""⟩)).batch.image
        (fun p => join_output_file p.1 p.2) =
      {"video_output/A_X.int", "video_output/B_X.int"}) := by
  refine ⟨by decide, by decide, by decide, by decide⟩

/-- C7: a transform task whose launch raises an exception or whose
process exits non-zero logs the failure and leaves the registry
unchanged, and the call returns normally; on a zero exit status the
derived artifact is inserted into the registry. -/
theorem c7_transform_failure_isolated :
    ∀ (input_file : String) (side : Side) (res : Except String ProcResult)
      (reg : Finset String),
      (∀ e, res = .error e →
        (transform_video input_file side res reg).registry = reg ∧
        (transform_video input_file side res reg).logs =
          ["Starting video transformation " ++ input_file,
           "Exception video transformation " ++ input_file ++ ": " ++ e]) ∧
      (∀ r, res = .ok r → r.returncode ≠ 0 →
        (transform_video input_file side res reg).registry = reg ∧
        (transform_video input_file side res reg).logs =
          ["Starting video transformation " ++ input_file,
           "Error video transformation " ++ input_file ++ ": " ++ r.stderr]) ∧
      (∀ r, res = .ok r → r.returncode = 0 →
        (transform_video input_file side res reg).registry =
          insert (transform_output_file side input_file) reg) := by
  intro input_file side res reg
  refine ⟨?_, ?_, ?_⟩
  · rintro e rfl
    simp [transform_video]
  · rintro r rfl h
    simp [transform_video, h]
  · rintro r rfl h
    simp [transform_video, h]

/-- Witness for C7: a transform of a left video exiting with status one
leaves an empty registry empty and logs the error. -/
theorem c7_transform_failure_witness :
    (transform_video "left_dir/videoA.mp4" .left (Except.ok ⟨1, "boom"⟩) ∅).registry = ∅ ∧
    (transform_video "left_dir/videoA.mp4" .left (Except.ok ⟨1, "boom"⟩) ∅).logs =
      ["Starting video transformation left_dir/videoA.mp4",
       "Error video transformation left_dir/videoA.mp4: boom"] :=
  (c7_transform_failure_isolated "left_dir/videoA.mp4" .left (Except.ok ⟨1, "boom"⟩) ∅).2.1
    ⟨1, "boom"⟩ rfl (by decide)

/-- Unfolding of run_transforms over a cons cell. -/
lemma run_transforms_cons (i : String) (is : List String) (side : Side)
    (res : String → Except String ProcResult) (reg : Finset String) :
    run_transforms (i :: is) side res reg =
      run_transforms is side res ((transform_video i side (res i) reg).registry) := rfl

/-- Characterization of a whole transform run: the final registry is the
initial one together with exactly the derived artifact of every item
whose launch succeeded. -/
lemma run_transforms_eq (side : Side) (res : String → Except String ProcResult) :
    ∀ (items : List String) (reg : Finset String),
      run_transforms items side res reg =
        reg ∪ ((items.filter (fun i => launch_ok (res i))).map
          (transform_output_file side)).toFinset := by
  intro items
  induction items with
  | nil => intro reg; simp [run_transforms]
  | cons i is ih =>
      intro reg
      rw [run_transforms_cons, transform_video_registry, ih]
      by_cases h : launch_ok (res i)
      · simp only [h, if_true, List.filter_cons, List.map_cons, List.toFinset_cons,
          decide_True, List.filter_cons_of_pos]
        ext a
        simp only [Finset.mem_union, Finset.mem_insert, List.mem_toFinset]
        tauto
      · simp [List.filter_cons, h]

/-- A transform run only ever adds artifacts to the registry. -/
lemma run_transforms_grows (items : List String) (side : Side)
    (res : String → Except String ProcResult) (reg : Finset String) :
    reg ⊆ run_transforms items side res reg := by
  rw [run_transforms_eq]
  exact Finset.subset_union_left

/-- Splitting a transform run at any point: the second part continues
from the registry produced by the first part. -/
lemma run_transforms_append (pre suf : List String) (side : Side)
    (res : String → Except String ProcResult) (reg : Finset String) :
    run_transforms (pre ++ suf) side res reg =
      run_transforms suf side res (run_transforms pre side res reg) := by
  simp [run_transforms, List.foldl_append]

/-- C4: in every driver iteration, the batch handed to the combine pool
is the full Cartesian product of the two registry snapshots, including
any pair already present in the produced set (not merely the delta); the
updated produced set is the union of the old one with that product and is
the same whatever the individual combine results are; and every message
of every task of the batch is part of this iteration (the iteration
completes the whole batch before the driver moves on). -/
theorem c4_batch_is_full_snapshot_product :
    ∀ (leftSnap rightSnap : Finset String) (produced : Finset (String × String))
      (res res2 : String × String → Except String ProcResult),
      (driver_iteration leftSnap rightSnap produced res).batch = leftSnap ×ˢ rightSnap ∧
      (∀ p, p ∈ produced → p ∈ leftSnap ×ˢ rightSnap →
        p ∈ (driver_iteration leftSnap rightSnap produced res).batch) ∧
      (driver_iteration leftSnap rightSnap produced res).produced =
        produced ∪ leftSnap ×ˢ rightSnap ∧
      (driver_iteration leftSnap rightSnap produced res).produced =
        (driver_iteration leftSnap rightSnap produced res2).produced ∧
      (∀ p, p ∈ (driver_iteration leftSnap rightSnap produced res).batch →
        ∀ m, m ∈ join_videos p.1 p.2 (res p) →
          (m : String) ∈ (driver_iteration leftSnap rightSnap produced res).logs) := by
  intro leftSnap rightSnap produced res res2
  refine ⟨rfl, ?_, rfl, rfl, ?_⟩
  · intro p _ hp
    exact hp
  · intro p hp m hm
    have hp2 : p ∈ (leftSnap ×ˢ rightSnap).val := Finset.mem_val.mpr hp
    show m ∈ (leftSnap ×ˢ rightSnap).val.bind
      (fun q => (join_videos q.1 q.2 (res q) : Multiset String))
    rw [Multiset.mem_bind]
    exact ⟨p, hp2, by simpa using hm⟩

/-- Witness for C4: a pair already recorded as produced is still part of
the next batch built from snapshots containing its components. -/
theorem c4_batch_witness :
    ("transformed_left_videos/videoA.mp4", "transformed_right_videos/videoX.mp4") ∈
      (driver_iteration {"transformed_left_videos/videoA.mp4"}
        {"transformed_right_videos/videoX.mp4"}
        {("transformed_left_videos/videoA.mp4", "transformed_right_videos/videoX.mp4")}
        (fun _ => Except.ok ⟨0, ""⟩)).batch :=
  (c4_batch_is_full_snapshot_product {"transformed_left_videos/videoA.mp4"}
      {"transformed_right_videos/videoX.mp4"}
      {("transformed_left_videos/videoA.mp4", "transformed_right_videos/videoX.mp4")}
      (fun _ => Except.ok ⟨0, ""⟩) (fun _ => Except.ok ⟨0, ""⟩)).2.1
    ("transformed_left_videos/videoA.mp4", "transformed_right_videos/videoX.mp4")
    (by decide) (by decide)

/-- C8: for any pair of the batch whose combine task fails, the failure
is logged; the task runs exactly once in the iteration (no retry); and
the driver still records the pair in the produced set at the end of the
iteration, exactly as it would had the task succeeded. -/
theorem c8_failed_combine_still_counted :
    ∀ (leftSnap rightSnap : Finset String) (produced : Finset (String × String))
      (res : String × String → Except String ProcResult) (p : String × String),
      p ∈ leftSnap ×ˢ rightSnap →
      (∀ r, res p = .ok r → r.returncode ≠ 0 →
        ("Error writing to " ++ join_output_file p.1 p.2 ++ ": " ++ r.stderr) ∈
          (driver_iteration leftSnap rightSnap produced res).logs) ∧
      (∀ e, res p = .error e →
        ("Exception writing to " ++ join_output_file p.1 p.2 ++ ": " ++ e) ∈
          (driver_iteration leftSnap rightSnap produced res).logs) ∧
      (driver_iteration leftSnap rightSnap produced res).batch.val.count p = 1 ∧
      p ∈ (driver_iteration leftSnap rightSnap produced res).produced ∧
      (driver_iteration leftSnap rightSnap produced res).produced =
        (driver_iteration leftSnap rightSnap produced (fun _ => Except.ok ⟨0, ""⟩)).produced := by
  intro leftSnap rightSnap produced res p hp
  have hp2 : p ∈ (leftSnap ×ˢ rightSnap).val := Finset.mem_val.mpr hp
  have hmem : ∀ m, m ∈ join_videos p.1 p.2 (res p) →
      m ∈ (driver_iteration leftSnap rightSnap produced res).logs := by
    intro m hm
    show m ∈ (leftSnap ×ˢ rightSnap).val.bind
      (fun q => (join_videos q.1 q.2 (res q) : Multiset String))
    rw [Multiset.mem_bind]
    exact ⟨p, hp2, by simpa using hm⟩
  refine ⟨?_, ?_, ?_, ?_, rfl⟩
  · intro r hr hne
    refine hmem _ ?_
    simp [join_videos, hr, hne]
  · intro e he
    refine hmem _ ?_
    simp [join_videos, he]
  · exact Multiset.count_eq_one_of_mem (leftSnap ×ˢ rightSnap).nodup hp
  · exact Finset.mem_union_right produced hp

/-- Witness for C8: a combine task exiting with status one on the only
available pair gets its error logged and the pair nevertheless recorded. -/
theorem c8_failed_combine_witness :
    ("Error writing to video_output/videoA_videoX.mp4: enc boom") ∈
      (driver_iteration {"transformed_left_videos/videoA.mp4"}
        {"transformed_right_videos/videoX.mp4"} ∅
        (fun _ => Except.ok ⟨1, "enc boom"⟩)).logs ∧
    ("transformed_left_videos/videoA.mp4", "transformed_right_videos/videoX.mp4") ∈
      (driver_iteration {"transformed_left_videos/videoA.mp4"}
        {"transformed_right_videos/videoX.mp4"} ∅
        (fun _ => Except.ok ⟨1, "enc boom"⟩)).produced := by
  have h := c8_failed_combine_still_counted {"transformed_left_videos/videoA.mp4"}
    {"transformed_right_videos/videoX.mp4"} ∅ (fun _ => Except.ok ⟨1, "enc boom"⟩)
    ("transformed_left_videos/videoA.mp4", "transformed_right_videos/videoX.mp4")
    (by decide)
  exact ⟨h.1 ⟨1, "enc boom"⟩ rfl (by decide), h.2.2.2.1⟩

/-- C9: a side's registry only grows during the run (both across one
submission batch and across any split of the item list), and the final
registry holds, besides the initial artifacts, exactly one
deterministically derived artifact per successfully transformed input
item, so no item ever contributes two artifacts. -/
theorem c9_registry_grows_one_artifact_per_item :
    ∀ (items : List String) (side : Side) (res : String → Except String ProcResult)
      (reg : Finset String),
      reg ⊆ run_transforms items side res reg ∧
      run_transforms items side res reg =
        reg ∪ ((items.filter (fun i => launch_ok (res i))).map
          (transform_output_file side)).toFinset ∧
      (∀ pre suf, run_transforms pre side res reg ⊆
        run_transforms (pre ++ suf) side res reg) := by
  intro items side res reg
  refine ⟨run_transforms_grows items side res reg, run_transforms_eq side res items reg, ?_⟩
  intro pre suf
  rw [run_transforms_append]
  exact run_transforms_grows suf side res (run_transforms pre side res reg)

/-- Witness for C9: a two-item left run with one failure yields exactly
the artifact of the succeeding item on top of an empty registry. -/
theorem c9_registry_witness :
    run_transforms ["left_dir/videoA.mp4", "left_dir/videoB.mp4"] .left
      (fun i => if i = "left_dir/videoA.mp4" then Except.ok ⟨1, "boom"⟩ else Except.ok ⟨0, ""⟩)
      ∅ =
      ∅ ∪ (((["left_dir/videoA.mp4", "left_dir/videoB.mp4"].filter
        (fun i => launch_ok (if i = "left_dir/videoA.mp4" then Except.ok ⟨1, "boom"⟩
          else Except.ok ⟨0, ""⟩))).map (transform_output_file .left)).toFinset) :=
  (c9_registry_grows_one_artifact_per_item
    ["left_dir/videoA.mp4", "left_dir/videoB.mp4"] .left
    (fun i => if i = "left_dir/videoA.mp4" then Except.ok ⟨1, "boom"⟩ else Except.ok ⟨0, ""⟩)
    ∅).2.1

/-- Trace for the C1 counterexample: both registries full from the start
(one artifact each), but every guard evaluation happens after the time
budget has been exceeded by one second. -/
def traceC1OverBudget : Trace :=
  ⟨fun _ => 10801,
   fun _ => {"transformed_left_videos/videoA.mp4"},
   fun _ => {"transformed_right_videos/videoX.mp4"}⟩

/-- C1 counterexample: in a run where every transform succeeded and both
registries are full, the produced set reaches the full size of one pair
after the first iteration, yet the loop never terminates, because once
the elapsed time exceeds MAX_ENC_TIME the guard disjunction stays true
forever; so the claim that the driver loop then terminates is false. -/
theorem c1_counterexample :
    (driver_state traceC1OverBudget 1 2).produced.card = 1 ∧
    ∀ n, (driver_state traceC1OverBudget 1 n).running = true := by
  constructor
  · decide
  · intro n
    induction n with
    | zero => rfl
    | succ n ih =>
        have ht : traceC1OverBudget.timeAt n = 10801 := rfl
        have hg : loop_guard (driver_state traceC1OverBudget 1 n).produced.card 1
            (traceC1OverBudget.timeAt n) = true := by
          rw [ht]
          show (decide _ || decide ((10801 : Nat) > MAX_ENC_TIME)) = true
          rw [Bool.or_eq_true]
          exact Or.inr (by decide)
        simp [driver_state, ih, hg]

/-- C1 amended: with non-empty inputs whose transforms all succeed (every
snapshot lies inside the full artifact sets and the registries are full at
some iteration), every one of the L times R pairs is eventually part of a
dispatched batch and the produced set reaches exactly L times R; the loop
then terminates provided the elapsed time at the following guard
evaluation is still within MAX_ENC_TIME (without that proviso the loop
runs forever, as the counterexample shows). -/
theorem c1_all_success_dispatches_all_terminates_within_budget
    (tr : Trace) (left_videos right_videos : List String)
    (L R : Finset String) (total n0 : Nat)
    (hL : L = (left_videos.map (transform_output_file .left)).toFinset)
    (hR : R = (right_videos.map (transform_output_file .right)).toFinset)
    (hLcard : L.card = left_videos.length)
    (hRcard : R.card = right_videos.length)
    (htotal : total = left_videos.length * right_videos.length)
    (hsub : ∀ n, tr.leftAt n ⊆ L ∧ tr.rightAt n ⊆ R)
    (hfullL : tr.leftAt n0 = L) (hfullR : tr.rightAt n0 = R)
    (htime : tr.timeAt (n0 + 1) ≤ MAX_ENC_TIME) :
    (∀ p ∈ L ×ˢ R, ∃ m, p ∈ dispatch_batch tr total m) ∧
    (driver_state tr total (n0 + 1 + 1)).produced.card = total ∧
    (driver_state tr total (n0 + 1 + 1)).running = false := by
  have htot : total = (L ×ˢ R).card := by
    rw [Finset.card_product, hLcard, hRcard, htotal]
  have hsubn := produced_subset_of_snapshots tr total L R hsub
  have key : (driver_state tr total (n0 + 1)).produced = L ×ˢ R := by
    cases hrun : (driver_state tr total n0).running with
    | false =>
        rw [driver_state_frozen tr total n0 hrun]
        exact stopped_produced_full tr total L R hsub htot n0 hrun
    | true =>
        cases hg : loop_guard (driver_state tr total n0).produced.card total (tr.timeAt n0) with
        | false =>
            have hstop : (driver_state tr total (n0 + 1)).running = false := by
              simp [driver_state, hrun, hg]
            exact stopped_produced_full tr total L R hsub htot (n0 + 1) hstop
        | true =>
            have hstep : driver_state tr total (n0 + 1) =
                ⟨(driver_state tr total n0).produced ∪ (tr.leftAt n0) ×ˢ (tr.rightAt n0),
                 true⟩ := by
              simp [driver_state, hrun, hg]
            rw [hstep]
            show (driver_state tr total n0).produced ∪ (tr.leftAt n0) ×ˢ (tr.rightAt n0) =
              L ×ˢ R
            rw [hfullL, hfullR]
            exact Finset.union_eq_right.mpr (hsubn n0)
  have hfin : (driver_state tr total (n0 + 1 + 1)).produced = L ×ˢ R ∧
      (driver_state tr total (n0 + 1 + 1)).running = false := by
    cases hrun1 : (driver_state tr total (n0 + 1)).running with
    | false =>
        rw [driver_state_frozen tr total (n0 + 1) hrun1]
        exact ⟨key, hrun1⟩
    | true =>
        have hg1 : loop_guard (driver_state tr total (n0 + 1)).produced.card total
            (tr.timeAt (n0 + 1)) = false := by
          have h1 : ¬ ((driver_state tr total (n0 + 1)).produced.card < total) := by
            rw [key]
            omega
          have h2 : ¬ (tr.timeAt (n0 + 1) > MAX_ENC_TIME) := by omega
          simp [loop_guard, h1, h2]
        rw [driver_state_step_stop tr total (n0 + 1) hrun1 hg1]
        exact ⟨key, rfl⟩
  refine ⟨?_, ?_, hfin.2⟩
  · intro p hp
    exact mem_produced_exists_dispatch tr total (n0 + 1) p (key ▸ hp)
  · rw [hfin.1, ← htot]

/-- Trace for the C1 witness: both registries full from the start and the
clock still at zero. -/
def traceC1WithinBudget : Trace :=
  ⟨fun _ => 0,
   fun _ => {"transformed_left_videos/videoA.mp4"},
   fun _ => {"transformed_right_videos/videoX.mp4"}⟩

/-- Witness for the amended C1: one left and one right input, all
transforms done, clock at zero; the single pair is dispatched, the
produced set reaches size one and the loop stops. -/
theorem c1_within_budget_witness :
    (∀ p ∈ ({"transformed_left_videos/videoA.mp4"} : Finset String) ×ˢ
        ({"transformed_right_videos/videoX.mp4"} : Finset String),
      ∃ m, p ∈ dispatch_batch traceC1WithinBudget 1 m) ∧
    (driver_state traceC1WithinBudget 1 (0 + 1 + 1)).produced.card = 1 ∧
    (driver_state traceC1WithinBudget 1 (0 + 1 + 1)).running = false :=
  c1_all_success_dispatches_all_terminates_within_budget traceC1WithinBudget
    ["left_dir/videoA.mp4"] ["right_dir/videoX.mp4"]
    {"transformed_left_videos/videoA.mp4"} {"transformed_right_videos/videoX.mp4"} 1 0
    (by decide) (by decide) (by decide) (by decide) (by decide)
    (fun _ => ⟨Finset.Subset.refl _, Finset.Subset.refl _⟩) rfl rfl (by decide)

/-- Trace for C3: the transform of the first left video failed, so the
left registry permanently holds only the second left artifact; the right
registry holds its single artifact; the clock stays at zero, well within
the budget. -/
def traceC3FailedLeft : Trace :=
  ⟨fun _ => 0,
   fun _ => {"transformed_left_videos/videoB.mp4"},
   fun _ => {"transformed_right_videos/videoX.mp4"}⟩

/-- C3 at the failing input (two left videos of which the first fails,
one right video): the failed video registers no artifact, so no
dispatched pair ever contains its artifact; but the produced set can
never reach total, which stays the product of the input counts, so the
loop guard holds at every step and the driver loop never terminates,
contradicting the claimed normal termination. -/
theorem c3_failed_transform_never_dispatched_loop_never_stops :
    run_transforms ["left_dir/videoA.mp4", "left_dir/videoB.mp4"] .left
        (fun i => if i = "left_dir/videoA.mp4" then Except.ok ⟨1, "boom"⟩
          else Except.ok ⟨0, ""⟩) ∅ =
      {"transformed_left_videos/videoB.mp4"} ∧
    (∀ n p, p ∈ dispatch_batch traceC3FailedLeft 2 n →
      p.1 ≠ transform_output_file .left "left_dir/videoA.mp4") ∧
    (∀ n, (driver_state traceC3FailedLeft 2 n).running = true) := by
  refine ⟨by decide, ?_, ?_⟩
  · intro n p hp
    simp only [dispatch_batch] at hp
    split at hp
    · obtain ⟨h1, h2⟩ := Finset.mem_product.mp hp
      rw [show traceC3FailedLeft.leftAt n =
          {"transformed_left_videos/videoB.mp4"} from rfl] at h1
      rw [Finset.mem_singleton] at h1
      rw [h1]
      decide
    · simp at hp
  · intro n
    induction n with
    | zero => rfl
    | succ n ih =>
        have hsubp : (driver_state traceC3FailedLeft 2 n).produced ⊆
            ({"transformed_left_videos/videoB.mp4"} : Finset String) ×ˢ
              ({"transformed_right_videos/videoX.mp4"} : Finset String) :=
          produced_subset_of_snapshots traceC3FailedLeft 2 _ _
            (fun _ => ⟨Finset.Subset.refl _, Finset.Subset.refl _⟩) n
        have hcard : (driver_state traceC3FailedLeft 2 n).produced.card ≤ 1 :=
          le_trans (Finset.card_le_card hsubp) (by decide)
        have hlt : (driver_state traceC3FailedLeft 2 n).produced.card < 2 := by omega
        have hg : loop_guard (driver_state traceC3FailedLeft 2 n).produced.card 2
            (traceC3FailedLeft.timeAt n) = true := by
          simp [loop_guard, hlt]
        simp [driver_state, ih, hg]

/-- Trace for the C5 counterexample: both registries full, the produced
set already complete after one iteration, and the clock one second over
the budget at every guard evaluation. -/
def traceC5OverBudget : Trace :=
  ⟨fun _ => 10801,
   fun _ => {"transformed_left_videos/videoA.mp4"},
   fun _ => {"transformed_right_videos/videoX.mp4"}⟩

/-- C5 counterexample: at the start of iteration one the registries are
fully populated and the produced set already holds all one times one
pairs, yet because the elapsed time exceeds MAX_ENC_TIME the guard is
still true and a non-empty batch of combine tasks is dispatched again; so
convergence is not idempotent under the source's stop condition. -/
theorem c5_counterexample :
    (driver_state traceC5OverBudget 1 1).produced.card = 1 ∧
    dispatch_batch traceC5OverBudget 1 1 ≠ ∅ := by
  exact ⟨by decide, by decide⟩

/-- C5 amended: whenever the produced set has reached the total and the
elapsed time is within MAX_ENC_TIME, the guard fails, no combine task is
dispatched at that step, and the loop is no longer running afterwards. -/
theorem c5_complete_within_budget_no_dispatch :
    ∀ (tr : Trace) (total n : Nat),
      total ≤ (driver_state tr total n).produced.card →
      tr.timeAt n ≤ MAX_ENC_TIME →
      dispatch_batch tr total n = ∅ ∧
      (driver_state tr total (n + 1)).running = false := by
  intro tr total n hcard htime
  have hg : loop_guard (driver_state tr total n).produced.card total (tr.timeAt n) = false := by
    have h1 : ¬ ((driver_state tr total n).produced.card < total) := by omega
    have h2 : ¬ (tr.timeAt n > MAX_ENC_TIME) := by omega
    simp [loop_guard, h1, h2]
  cases hrun : (driver_state tr total n).running with
  | false =>
      refine ⟨by simp [dispatch_batch, hrun], ?_⟩
      simp [driver_state, hrun]
  | true =>
      refine ⟨by simp [dispatch_batch, hrun, hg], ?_⟩
      simp [driver_state, hrun, hg]

/-- Trace for the C5 witness: both registries full and the clock at
zero. -/
def traceC5WithinBudget : Trace :=
  ⟨fun _ => 0,
   fun _ => {"transformed_left_videos/videoA.mp4"},
   fun _ => {"transformed_right_videos/videoX.mp4"}⟩

/-- Witness for the amended C5: after the single pair is produced in
iteration zero, iteration one dispatches nothing and the loop stops. -/
theorem c5_no_dispatch_witness :
    dispatch_batch traceC5WithinBudget 1 1 = ∅ ∧
    (driver_state traceC5WithinBudget 1 (1 + 1)).running = false :=
  c5_complete_within_budget_no_dispatch traceC5WithinBudget 1 1 (by decide) (by decide)

/-- C10: if either input collection is empty then total is zero, the
guard is already false at the first evaluation (the clock not yet over
budget), the loop body never runs, nothing is ever produced and no
combine task is ever dispatched. -/
theorem c10_empty_side_immediate_exit :
    ∀ (tr : Trace) (left_videos right_videos : List String),
      left_videos = [] ∨ right_videos = [] →
      tr.timeAt 0 ≤ MAX_ENC_TIME →
      left_videos.length * right_videos.length = 0 ∧
      loop_guard 0 (left_videos.length * right_videos.length) (tr.timeAt 0) = false ∧
      (driver_state tr (left_videos.length * right_videos.length) 1).running = false ∧
      (∀ n, (driver_state tr (left_videos.length * right_videos.length) n).produced = ∅) ∧
      (∀ n, dispatch_batch tr (left_videos.length * right_videos.length) n = ∅) := by
  intro tr lv rv hempty htime
  have htot : lv.length * rv.length = 0 := by
    rcases hempty with h | h <;> simp [h]
  have hg0 : loop_guard 0 (lv.length * rv.length) (tr.timeAt 0) = false := by
    have h1 : ¬ (0 < lv.length * rv.length) := by omega
    have h2 : ¬ (tr.timeAt 0 > MAX_ENC_TIME) := by omega
    simp [loop_guard, h1, h2]
  have hs1 : driver_state tr (lv.length * rv.length) 1 = ⟨∅, false⟩ := by
    simp [driver_state, hg0]
  have hall : ∀ n, driver_state tr (lv.length * rv.length) (n + 1) = ⟨∅, false⟩ := by
    intro n
    induction n with
    | zero => exact hs1
    | succ n ih =>
        rw [driver_state_frozen tr (lv.length * rv.length) (n + 1) (by rw [ih]), ih]
  refine ⟨htot, hg0, by rw [hs1], ?_, ?_⟩
  · intro n
    cases n with
    | zero => rfl
    | succ n => rw [hall n]
  · intro n
    cases n with
    | zero => simp [dispatch_batch, driver_state, hg0]
    | succ n => simp [dispatch_batch, hall n]

/-- Trace for the C10 witness: empty registries and a clock at zero. -/
def traceC10Empty : Trace := ⟨fun _ => 0, fun _ => ∅, fun _ => ∅⟩

/-- Witness for C10: with no left videos and one right video the driver
exits at once without dispatching anything. -/
theorem c10_empty_side_witness :
    ([] : List String).length * ["right_dir/videoX.mp4"].length = 0 ∧
    loop_guard 0 (([] : List String).length * ["right_dir/videoX.mp4"].length)
      (traceC10Empty.timeAt 0) = false ∧
    (driver_state traceC10Empty
      (([] : List String).length * ["right_dir/videoX.mp4"].length) 1).running = false ∧
    (∀ n, (driver_state traceC10Empty
      (([] : List String).length * ["right_dir/videoX.mp4"].length) n).produced = ∅) ∧
    (∀ n, dispatch_batch traceC10Empty
      (([] : List String).length * ["right_dir/videoX.mp4"].length) n = ∅) :=
  c10_empty_side_immediate_exit traceC10Empty [] ["right_dir/videoX.mp4"]
    (Or.inl rfl) (by decide)

end CombineLR
